import Mathlib

/-!
Shallow embedding of the token-issuance core of gh-app-token.

The repository contains two near-duplicate implementations of the
JWT-sign / resolve-installation / exchange-for-token workflow:

* `pkg/auth/auth.go` (generic REST client): `GenerateJWT`,
  `getInstallationIDFromEndpoint`, `GetInstallationIDFromOrg/Repo/User`,
  `GetInstallationToken`.  These are embedded in the `Auth` namespace.
* `pkg/app/app.go` (dedicated GitHub client): `generateJWT`, `GetToken`,
  `GetTokenFromOrg/Repo/User`, `WithEnterprise`.  These are embedded in
  the `App` namespace.
* `cmd/root/root.go` (CLI front-end): `validateFlags`, `getToken`, and the
  run pipeline.  These are embedded in the `Root` namespace.

Modelling conventions:

* Times are Unix seconds as `Int` (Go `int64`; no arithmetic here can
  overflow 64 bits for realistic clock values, so plain `Int` is used and
  the claims are about the exact arithmetic the Go code performs).
* Network I/O is an oracle (`Backend` / `AuthBackend`): a function from
  the request data to the remote result.  Each operation additionally
  returns the list of remote calls it issued, in order, so that claims
  about "no network call" / "exactly one exchange call" are statements
  about that trace.  REST-client construction (`api.NewRESTClient`,
  `github.NewClient`) is absorbed into the oracle: it performs no I/O.
* The RS256 signing step (`token.SignedString`) is not modelled: given a
  valid RSA key it deterministically succeeds, and every claim about the
  JWT concerns its claim set, which is fully modelled.
-/

/-- The `iss` claim value: `pkg/auth` stores the app id as a JSON number,
`pkg/app` stores it as a decimal string (`strconv.FormatInt(appID, 10)`). -/
inductive IssClaim where
  | int : Int → IssClaim
  | str : String → IssClaim
deriving DecidableEq, Repr

/-- The claim set of the generated JWT: `iss`, `iat`, `exp`
(Unix seconds). -/
structure JWTClaims where
  iss : IssClaim
  iat : Int
  exp : Int
deriving DecidableEq, Repr

/-- Embeds `auth.GenerateJWT` (pkg/auth/auth.go, lines 35-47), claim set only:
`iat = now.Unix() - 60`, `exp = now.Add(10*time.Minute).Unix()`,
`iss = appID` (as a number).  `now` is the current Unix time. -/
def Auth.generateJWTClaims (appID : Int) (now : Int) : JWTClaims :=
  { iss := IssClaim.int appID
    iat := now - 60
    exp := now + 600 }

/-- Embeds `app.generateJWT` (pkg/app/app.go, lines 31-49), claim set only:
`now := time.Now().Add(-1 * time.Minute)`, then
`Issuer = strconv.FormatInt(appID, 10)`, `IssuedAt = now`,
`ExpiresAt = now.Add(10 * time.Minute)`.  The skew shift is applied
before both `iat` and `exp` are computed. -/
def App.generateJWTClaims (appID : Int) (now : Int) : JWTClaims :=
  let skewed := now - 60
  { iss := IssClaim.str (toString appID)
    iat := skewed
    exp := skewed + 600 }

/-- One remote call issued by the `pkg/app` workflow: an exchange
(`Apps.CreateInstallationToken`) or one of the three installation
lookups (`Apps.FindOrganizationInstallation`,
`Apps.FindRepositoryInstallation`, `Apps.FindUserInstallation`). -/
inductive Call where
  | exchange : Int → Call
  | lookupOrg : String → Call
  | lookupRepo : String → String → Call
  | lookupUser : String → Call
deriving DecidableEq, Repr

/-- The remote GitHub API as seen by `pkg/app`: a fixed function from
request data to result.  An `Except.error` is any remote failure
(non-2xx, network error, malformed body). -/
structure Backend where
  createInstallationToken : Int → Except String String
  findOrganizationInstallation : String → Except String Int
  findRepositoryInstallation : String → String → Except String Int
  findUserInstallation : String → Except String Int

/-- Embeds `(*AppToken).GetToken` (pkg/app/app.go, lines 61-68): one exchange
call; on remote failure the error is wrapped, on success the token string
is returned exactly as extracted from the response (no validation). -/
def App.GetToken (b : Backend) (installationID : Int) :
    Except String String × List Call :=
  match b.createInstallationToken installationID with
  | Except.error e =>
      (Except.error ("failed to create installation token: " ++ e),
       [Call.exchange installationID])
  | Except.ok t => (Except.ok t, [Call.exchange installationID])

/-- Embeds `(*AppToken).GetTokenFromOrg` (pkg/app/app.go, lines 70-80). -/
def App.GetTokenFromOrg (b : Backend) (org : String) :
    Except String String × List Call :=
  if org = "" then (Except.error "org name is required", [])
  else
    match b.findOrganizationInstallation org with
    | Except.error e =>
        (Except.error ("failed to find organization installation: " ++ e),
         [Call.lookupOrg org])
    | Except.ok id =>
        let r := App.GetToken b id
        (r.1, Call.lookupOrg org :: r.2)

/-- Embeds `(*AppToken).GetTokenFromRepo` (pkg/app/app.go, lines 82-92). -/
def App.GetTokenFromRepo (b : Backend) (owner repo : String) :
    Except String String × List Call :=
  if owner = "" ∨ repo = "" then
    (Except.error "owner and repo name are required", [])
  else
    match b.findRepositoryInstallation owner repo with
    | Except.error e =>
        (Except.error ("failed to find repository installation: " ++ e),
         [Call.lookupRepo owner repo])
    | Except.ok id =>
        let r := App.GetToken b id
        (r.1, Call.lookupRepo owner repo :: r.2)

/-- Embeds `(*AppToken).GetTokenFromUser` (pkg/app/app.go, lines 94-104). -/
def App.GetTokenFromUser (b : Backend) (user : String) :
    Except String String × List Call :=
  if user = "" then (Except.error "user name is required", [])
  else
    match b.findUserInstallation user with
    | Except.error e =>
        (Except.error ("failed to find user installation: " ++ e),
         [Call.lookupUser user])
    | Except.ok id =>
        let r := App.GetToken b id
        (r.1, Call.lookupUser user :: r.2)

/-- Embeds `(*AppToken).WithEnterprise` (pkg/app/app.go, lines 51-59), with the
client abstract (`C`) and the library call `WithEnterpriseURLs` passed as
a function.  Returns the error result together with the post-call
`AppToken` state: the Go method mutates `a.client` only after a
successful `WithEnterpriseURLs`. -/
structure AppTokenState (C : Type) where
  client : C
deriving DecidableEq, Repr

def App.WithEnterprise {C : Type}
    (withEnterpriseURLs : C → String → Except String C)
    (a : AppTokenState C) (baseURL : String) :
    Except String Unit × AppTokenState C :=
  match withEnterpriseURLs a.client baseURL with
  | Except.error e =>
      (Except.error ("failed to create client: " ++ e), a)
  | Except.ok c => (Except.ok (), { client := c })

/-- Helper for `goSplit`: accumulates the current segment (reversed). -/
def goSplitAux (sep : Char) : List Char → List Char → List String
  | [], acc => [String.mk acc.reverse]
  | c :: cs, acc =>
    if c = sep then String.mk acc.reverse :: goSplitAux sep cs []
    else goSplitAux sep cs (c :: acc)

/-- Models Go `strings.Split(s, sep)` for a one-character separator, the
only form the repository uses (`strings.Split(repo, "/")`): cutting `s`
at every occurrence of `sep`, so splitting the empty string gives one
empty segment and splitting "owner/" on the slash gives two segments,
the second empty.  Structural recursion
so that it evaluates by `rfl` / `decide`. -/
def goSplit (sep : Char) (s : String) : List String :=
  goSplitAux sep s.toList []

/-- The six package-level flag variables of cmd/root/root.go after the
flag / environment resolution of `PersistentPreRunE`. -/
structure Flags where
  appID : Int
  privateKeyPath : String
  installationID : Int
  org : String
  repo : String
  user : String
deriving DecidableEq, Repr

/-- Embeds `validateFlags` (cmd/root/root.go, lines 26-49): the checks
and error messages in source order. -/
def Root.validateFlags (f : Flags) : Except String Unit :=
  if f.appID = 0 then
    Except.error "app ID is required (--app-id or GH_APP_TOKEN_APP_ID)"
  else if f.privateKeyPath = "" then
    Except.error
      "private key path is required (--private-key or GH_APP_TOKEN_PRIVATE_KEY)"
  else if f.installationID = 0 ∧ f.org = "" ∧ f.repo = "" ∧ f.user = "" then
    Except.error "--installation-id, --org, --repo, or --user is required"
  else if f.installationID ≠ 0 ∧ (f.org ≠ "" ∨ f.repo ≠ "" ∨ f.user ≠ "") then
    Except.error
      "--installation-id and --org, --repo, or --user cannot be used together"
  else if (f.org ≠ "" ∧ f.repo ≠ "") ∨ (f.org ≠ "" ∧ f.user ≠ "") ∨
      (f.repo ≠ "" ∧ f.user ≠ "") then
    Except.error "--org, --repo, or --user cannot be used together"
  else Except.ok ()

/-- Embeds `getToken` (cmd/root/root.go, lines 122-147): dispatch on the
first set selector field, in source order.  `strings.Split(repo, "/")`
with a length-2 check is the match on `goSplit`. -/
def Root.getToken (b : Backend) (f : Flags) :
    Except String String × List Call :=
  if f.installationID ≠ 0 then App.GetToken b f.installationID
  else if f.org ≠ "" then App.GetTokenFromOrg b f.org
  else if f.repo ≠ "" then
    match goSplit (Char.ofNat 47) f.repo with
    | [owner, name] => App.GetTokenFromRepo b owner name
    | _ => (Except.error "repo must be in format \x27owner/repo\x27", [])
  else if f.user ≠ "" then App.GetTokenFromUser b f.user
  else
    (Except.error "no installation ID, org, repo, or user provided", [])

/-- Embeds the `RunE` pipeline of cmd/root/root.go (lines 96-122):
`validateFlags`, then `app.New` (its key loading and JWT signing is the
`keyLoad` argument; it performs no network call), then `getToken`, whose
error is wrapped.  The optional `WithEnterprise` host rewrite does not
affect the call trace and is omitted. -/
def Root.runWorkflow (keyLoad : Except String Unit) (b : Backend)
    (f : Flags) : Except String String × List Call :=
  match Root.validateFlags f with
  | Except.error e => (Except.error e, [])
  | Except.ok _ =>
    match keyLoad with
    | Except.error e =>
        (Except.error ("failed to create app token: " ++ e), [])
    | Except.ok _ =>
      let r := Root.getToken b f
      match r.1 with
      | Except.error e => (Except.error ("failed to get token: " ++ e), r.2)
      | Except.ok t => (Except.ok t, r.2)

/-- How many of the four target-selector fields are set (nonzero id /
nonempty string). -/
def Root.numSelectors (f : Flags) : Nat :=
  (if f.installationID ≠ 0 then 1 else 0) + (if f.org ≠ "" then 1 else 0) +
    (if f.repo ≠ "" then 1 else 0) + (if f.user ≠ "" then 1 else 0)

/-- Counts the exchange calls in a trace. -/
def numExchanges : List Call → Nat
  | [] => 0
  | Call.exchange _ :: cs => numExchanges cs + 1
  | _ :: cs => numExchanges cs

/-- Counts the lookup calls in a trace. -/
def numLookups : List Call → Nat
  | [] => 0
  | Call.exchange _ :: cs => numLookups cs
  | _ :: cs => numLookups cs + 1

/-- The remote GitHub API as seen by `pkg/auth` through the generic REST
client: GET and POST keyed by the bearer JWT and the endpoint path.
Client construction (`api.NewRESTClient`) performs no I/O and is absorbed
into the oracle. -/
structure AuthBackend where
  get : String → String → Except String Int
  post : String → String → Except String String

/-- Embeds `getInstallationIDFromEndpoint` (pkg/auth/auth.go, lines
80-97): one GET, error wrapped, id extracted from the response body.  The
trace is the list of endpoints hit. -/
def Auth.getInstallationIDFromEndpoint (b : AuthBackend)
    (jwtToken endpoint : String) : Except String Int × List String :=
  match b.get jwtToken endpoint with
  | Except.error e =>
      (Except.error ("failed to get installation ID: " ++ e), [endpoint])
  | Except.ok id => (Except.ok id, [endpoint])

/-- Embeds `GetInstallationIDFromOrg` (pkg/auth/auth.go, lines 99-104). -/
def Auth.GetInstallationIDFromOrg (b : AuthBackend)
    (jwtToken org : String) : Except String Int × List String :=
  if org = "" then (Except.error "org name is required", [])
  else
    Auth.getInstallationIDFromEndpoint b jwtToken
      ("orgs/" ++ org ++ "/installation")

/-- Embeds `GetInstallationIDFromRepo` (pkg/auth/auth.go, lines 106-115):
rejects the empty string, then any string whose split on `/` does not
have exactly two parts; the parts themselves are not inspected. -/
def Auth.GetInstallationIDFromRepo (b : AuthBackend)
    (jwtToken repo : String) : Except String Int × List String :=
  if repo = "" then (Except.error "repo name is required", [])
  else if (goSplit (Char.ofNat 47) repo).length ≠ 2 then
    (Except.error "repo must be in format \x27owner/repo\x27", [])
  else
    Auth.getInstallationIDFromEndpoint b jwtToken
      ("repos/" ++ repo ++ "/installation")

/-- Embeds `GetInstallationIDFromUser` (pkg/auth/auth.go, lines 117-122). -/
def Auth.GetInstallationIDFromUser (b : AuthBackend)
    (jwtToken user : String) : Except String Int × List String :=
  if user = "" then (Except.error "user name is required", [])
  else
    Auth.getInstallationIDFromEndpoint b jwtToken
      ("users/" ++ user ++ "/installation")

/-- Embeds `GetInstallationToken` (pkg/auth/auth.go, lines 57-74): one
POST to the access-token endpoint; on success the `token` field of the
response is returned exactly as decoded (a missing field decodes to the
empty string), with no non-emptiness check. -/
def Auth.GetInstallationToken (b : AuthBackend)
    (jwtToken : String) (installationID : Int) :
    Except String String × List String :=
  let endpoint :=
    "app/installations/" ++ toString installationID ++ "/access_tokens"
  match b.post jwtToken endpoint with
  | Except.error e =>
      (Except.error ("failed to get installation token: " ++ e), [endpoint])
  | Except.ok t => (Except.ok t, [endpoint])

/-- A backend with observable state `σ`, used to express idempotence
against an unchanged backend: each GET consumes and returns the state. -/
structure StatefulAuthBackend (σ : Type) where
  get : σ → String → String → Except String Int × σ

/-- Stateful version of `getInstallationIDFromEndpoint`. -/
def Auth.getInstallationIDFromEndpointS {σ : Type}
    (b : StatefulAuthBackend σ) (s : σ) (jwtToken endpoint : String) :
    Except String Int × σ :=
  let r := b.get s jwtToken endpoint
  match r.1 with
  | Except.error e =>
      (Except.error ("failed to get installation ID: " ++ e), r.2)
  | Except.ok id => (Except.ok id, r.2)

/-- The three ways a lookup identifies the target installation (the
explicit-id selector needs no lookup). -/
inductive Selector where
  | org : String → Selector
  | repo : String → Selector
  | user : String → Selector
deriving DecidableEq, Repr

/-- The spec's `resolveInstallationID` over the stateful backend: the
dispatch to `GetInstallationIDFromOrg` / `Repo` / `User` of
pkg/auth/auth.go, threading the backend state. -/
def Auth.resolveInstallationID {σ : Type} (b : StatefulAuthBackend σ)
    (s : σ) (jwtToken : String) : Selector → Except String Int × σ
  | Selector.org o =>
      if o = "" then (Except.error "org name is required", s)
      else
        Auth.getInstallationIDFromEndpointS b s jwtToken
          ("orgs/" ++ o ++ "/installation")
  | Selector.repo r =>
      if r = "" then (Except.error "repo name is required", s)
      else if (goSplit (Char.ofNat 47) r).length ≠ 2 then
        (Except.error "repo must be in format \x27owner/repo\x27", s)
      else
        Auth.getInstallationIDFromEndpointS b s jwtToken
          ("repos/" ++ r ++ "/installation")
  | Selector.user u =>
      if u = "" then (Except.error "user name is required", s)
      else
        Auth.getInstallationIDFromEndpointS b s jwtToken
          ("users/" ++ u ++ "/installation")

/-- A backend on which every remote call succeeds. -/
def bOK : Backend :=
  { createInstallationToken := fun _ => Except.ok "tok"
    findOrganizationInstallation := fun _ => Except.ok 123
    findRepositoryInstallation := fun _ _ => Except.ok 123
    findUserInstallation := fun _ => Except.ok 123 }

/-- A backend on which every lookup fails remotely. -/
def bFail : Backend :=
  { createInstallationToken := fun _ => Except.ok "tok"
    findOrganizationInstallation := fun _ => Except.error "remote failure"
    findRepositoryInstallation := fun _ _ => Except.error "remote failure"
    findUserInstallation := fun _ => Except.error "remote failure" }

/-- A backend whose exchange responds 2xx with an empty `token` field. -/
def bEmptyTok : Backend :=
  { createInstallationToken := fun _ => Except.ok ""
    findOrganizationInstallation := fun _ => Except.ok 123
    findRepositoryInstallation := fun _ _ => Except.ok 123
    findUserInstallation := fun _ => Except.ok 123 }

/-- A generic-client backend on which every remote call succeeds. -/
def abOK : AuthBackend :=
  { get := fun _ _ => Except.ok 7
    post := fun _ _ => Except.ok "tok" }

/-- A generic-client backend whose exchange responds with an empty
`token` field. -/
def abEmptyTok : AuthBackend :=
  { get := fun _ _ => Except.ok 7
    post := fun _ _ => Except.ok "" }

/-- A stateful backend over `Unit` state (trivially unchanged). -/
def sbOK : StatefulAuthBackend Unit :=
  { get := fun s _ _ => (Except.ok 42, s) }

/-- A model of `WithEnterpriseURLs`: succeeds only on the base URL
"good". -/
def wTest : Nat → String → Except String Nat :=
  fun _ u => if u = "good" then Except.ok 1 else Except.error "parse error"

/-- Flags selecting installation id 9 directly. -/
def fId : Flags :=
  { appID := 1, privateKeyPath := "k", installationID := 9
    org := "", repo := "", user := "" }

/-- Flags selecting org "testorg". -/
def fOrg : Flags :=
  { appID := 1, privateKeyPath := "k", installationID := 0
    org := "testorg", repo := "", user := "" }

/-- Conflicting flags: both an installation id and an org are set. -/
def fConflict : Flags :=
  { appID := 1, privateKeyPath := "k", installationID := 9
    org := "conflict-org", repo := "", user := "" }

/-- Conflicting flags without an installation id: both an org and a user
are set. -/
def fOrgUser : Flags :=
  { appID := 1, privateKeyPath := "k", installationID := 0
    org := "testorg", repo := "", user := "someone" }

/-- Flags with no selector at all. -/
def fNone : Flags :=
  { appID := 5, privateKeyPath := "k", installationID := 0
    org := "", repo := "", user := "" }

/-- C1 (counterexample): the claim states `exp` equals the un-skewed
current time plus 10 minutes and `exp - iat` equals 10 minutes plus the
skew allowance; for `app.generateJWT` (used by the CLI) both fail:
at `now = 1000` it sets `exp = 1540`, not `1600`, and `exp - iat = 600`,
not `660`. -/
theorem C1_counterexample :
    (App.generateJWTClaims 12345 1000).exp ≠ 1000 + 600
    ∧ (App.generateJWTClaims 12345 1000).exp
        - (App.generateJWTClaims 12345 1000).iat ≠ 600 + 60 := by
  decide

/-- C1 (amended): both signers set `iss` to the app identifier and
`iat = now - 60`.  `auth.GenerateJWT` sets `exp = now + 600`, so
`exp - iat = 660` (10 minutes plus the 60-second skew);
`app.generateJWT` shifts `now` by the skew before computing both claims,
so `exp = now + 540` and `exp - iat = 600` exactly. -/
theorem C1_jwt_claim_values (appID now : Int) :
    (Auth.generateJWTClaims appID now).iss = IssClaim.int appID
    ∧ (Auth.generateJWTClaims appID now).iat = now - 60
    ∧ (Auth.generateJWTClaims appID now).exp = now + 600
    ∧ (Auth.generateJWTClaims appID now).exp
        - (Auth.generateJWTClaims appID now).iat = 660
    ∧ (App.generateJWTClaims appID now).iss = IssClaim.str (toString appID)
    ∧ (App.generateJWTClaims appID now).iat = now - 60
    ∧ (App.generateJWTClaims appID now).exp = now + 540
    ∧ (App.generateJWTClaims appID now).exp
        - (App.generateJWTClaims appID now).iat = 600 := by
  refine ⟨rfl, rfl, rfl, ?_, rfl, rfl, ?_, ?_⟩ <;>
    · simp only [Auth.generateJWTClaims, App.generateJWTClaims]
      omega

/-- C3 (counterexample): the repo string "owner/" does not split into two
non-empty segments, yet `GetInstallationIDFromRepo` does not fail: it
issues the network lookup (endpoint `repos/owner//installation`) and
returns its result. -/
theorem C3_counterexample :
    Auth.GetInstallationIDFromRepo abOK "jwt" "owner/"
      = (Except.ok 7, ["repos/owner//installation"]) := rfl

/-- C3 (amended): a repo string whose split on `/` does not have exactly
two segments is rejected by `GetInstallationIDFromRepo` before any
network call (the empty string with its own message); a two-segment
string with an empty segment passes that check, and on the CLI path is
rejected before the network only by `GetTokenFromRepo`, with the
distinct message "owner and repo name are required". -/
theorem C3_malformed_repo_no_network (ab : AuthBackend) (b : Backend)
    (jwtToken repo : String) (h : (goSplit (Char.ofNat 47) repo).length ≠ 2)
    (owner name : String) (h2 : owner = "" ∨ name = "") :
    Auth.GetInstallationIDFromRepo ab jwtToken repo
      = (Except.error (if repo = "" then "repo name is required"
          else "repo must be in format \x27owner/repo\x27"), [])
    ∧ App.GetTokenFromRepo b owner name
      = (Except.error "owner and repo name are required", []) := by
  constructor
  · by_cases hr : repo = "" <;>
      simp [Auth.GetInstallationIDFromRepo, hr, h]
  · unfold App.GetTokenFromRepo
    rw [if_pos h2]

/-- C3 (witness): the amended theorem at repo "a/b/c" (three segments)
and at owner "x" with empty repo segment. -/
theorem C3_witness :
    Auth.GetInstallationIDFromRepo abOK "jwt" "a/b/c"
      = (Except.error (if ("a/b/c" : String) = "" then "repo name is required"
          else "repo must be in format \x27owner/repo\x27"), [])
    ∧ App.GetTokenFromRepo bOK "x" ""
      = (Except.error "owner and repo name are required", []) :=
  C3_malformed_repo_no_network abOK bOK "jwt" "a/b/c" (by decide) "x" ""
    (Or.inr rfl)

/-- C4 (confirmed): whenever the remote exchange request succeeds, both
exchange implementations return the token string exactly as extracted
from the response, with no further validation; an empty token is a
success. -/
theorem C4_exchange_returns_token_unvalidated
    (b : Backend) (ab : AuthBackend) (jwtToken : String)
    (installationID : Int) (t : String)
    (hApp : b.createInstallationToken installationID = Except.ok t)
    (hAuth : ab.post jwtToken
        ("app/installations/" ++ toString installationID ++ "/access_tokens")
      = Except.ok t) :
    App.GetToken b installationID
      = (Except.ok t, [Call.exchange installationID])
    ∧ Auth.GetInstallationToken ab jwtToken installationID
      = (Except.ok t,
         ["app/installations/" ++ toString installationID
           ++ "/access_tokens"]) := by
  constructor
  · simp [App.GetToken, hApp]
  · simp [Auth.GetInstallationToken, hAuth]

/-- C4 (witness): with a backend whose exchange responds with an empty
token field, both implementations return the empty string as success. -/
theorem C4_witness :
    App.GetToken bEmptyTok 99 = (Except.ok "", [Call.exchange 99])
    ∧ Auth.GetInstallationToken abEmptyTok "jwt" 99
      = (Except.ok "", ["app/installations/99/access_tokens"]) :=
  C4_exchange_returns_token_unvalidated bEmptyTok abEmptyTok "jwt" 99 ""
    rfl rfl

/-- C6 (confirmed): with no installation id and empty org, repo and user,
`getToken` returns the selector-missing error with an empty call trace
(no lookup, no exchange), and `validateFlags` (given the app id and key
path checks pass) already rejects the flags with its own
selector-required error before `getToken` is ever reached. -/
theorem C6_empty_selector_fails_fast (b : Backend) (f : Flags)
    (h1 : f.installationID = 0) (h2 : f.org = "") (h3 : f.repo = "")
    (h4 : f.user = "") :
    Root.getToken b f
      = (Except.error "no installation ID, org, repo, or user provided", [])
    ∧ (f.appID ≠ 0 → f.privateKeyPath ≠ "" →
        Root.validateFlags f
          = Except.error
              "--installation-id, --org, --repo, or --user is required") := by
  constructor
  · simp [Root.getToken, h1, h2, h3, h4]
  · intro hA hK
    simp [Root.validateFlags, hA, hK, h1, h2, h3, h4]

/-- C6 (witness): the theorem at concrete selector-free flags against the
all-ok backend. -/
theorem C6_witness :
    Root.getToken bOK fNone
      = (Except.error "no installation ID, org, repo, or user provided", [])
    ∧ (fNone.appID ≠ 0 → fNone.privateKeyPath ≠ "" →
        Root.validateFlags fNone
          = Except.error
              "--installation-id, --org, --repo, or --user is required") :=
  C6_empty_selector_fails_fast bOK fNone rfl rfl rfl rfl

/-- C7 (confirmed): the empty org and the empty user are rejected by all
four lookup operations (both implementations) with a descriptive error
and an empty call trace: no request is constructed and no I/O happens. -/
theorem C7_empty_org_user_no_io (b : Backend) (ab : AuthBackend)
    (jwtToken : String) :
    Auth.GetInstallationIDFromOrg ab jwtToken ""
      = (Except.error "org name is required", [])
    ∧ Auth.GetInstallationIDFromUser ab jwtToken ""
      = (Except.error "user name is required", [])
    ∧ App.GetTokenFromOrg b "" = (Except.error "org name is required", [])
    ∧ App.GetTokenFromUser b ""
      = (Except.error "user name is required", []) := by
  refine ⟨?_, ?_, ?_, ?_⟩ <;> rfl

/-- C8 (confirmed): against an unchanged backend (the observable backend
state after the first call equals the state before it), a repeated
`resolveInstallationID` with the same selector and JWT returns the same
result — resolution is a function of the selector and the backend
state. -/
theorem C8_resolve_idempotent {σ : Type} (b : StatefulAuthBackend σ)
    (s0 : σ) (jwtToken : String) (sel : Selector)
    (hUnchanged : (Auth.resolveInstallationID b s0 jwtToken sel).2 = s0) :
    Auth.resolveInstallationID b
        (Auth.resolveInstallationID b s0 jwtToken sel).2 jwtToken sel
      = Auth.resolveInstallationID b s0 jwtToken sel := by
  rw [hUnchanged]

/-- C8 (witness): the theorem at a concrete stateless backend and the org
selector. -/
theorem C8_witness :
    Auth.resolveInstallationID sbOK
        (Auth.resolveInstallationID sbOK () "jwt" (Selector.org "o")).2
        "jwt" (Selector.org "o")
      = Auth.resolveInstallationID sbOK () "jwt" (Selector.org "o") :=
  C8_resolve_idempotent sbOK () "jwt" (Selector.org "o") rfl

/-- C9 (confirmed): `WithEnterprise` is atomic: when `WithEnterpriseURLs`
fails, the wrapped error is returned and the `AppToken` state is exactly
the pre-call state (the client field is untouched); when it succeeds,
the client field is replaced by the enterprise-configured client. -/
theorem C9_withEnterprise_atomic {C : Type}
    (w : C → String → Except String C) (a : AppTokenState C)
    (baseURL : String) :
    (∀ e, w a.client baseURL = Except.error e →
      App.WithEnterprise w a baseURL
        = (Except.error ("failed to create client: " ++ e), a))
    ∧ (∀ c, w a.client baseURL = Except.ok c →
      App.WithEnterprise w a baseURL = (Except.ok (), { client := c })) := by
  constructor
  · intro e h
    simp [App.WithEnterprise, h]
  · intro c h
    simp [App.WithEnterprise, h]

/-- C9 (witness): the theorem at a concrete client model, once on a URL
the library call rejects (state unchanged) and once on one it accepts
(client replaced). -/
theorem C9_witness :
    App.WithEnterprise wTest { client := 0 } "bad"
      = (Except.error ("failed to create client: " ++ "parse error"),
         { client := 0 })
    ∧ App.WithEnterprise wTest { client := 0 } "good"
      = (Except.ok (), { client := 1 }) :=
  ⟨(C9_withEnterprise_atomic wTest { client := 0 } "bad").1 "parse error" rfl,
   (C9_withEnterprise_atomic wTest { client := 0 } "good").2 1 rfl⟩

/-- C10 (confirmed): the signing cores place no precondition on the app
identifier: for every `appID` (including 0 and negatives) the claim set
embeds it as `iss` (a number in pkg/auth, a decimal string in pkg/app);
the nonzero requirement lives only in the CLI front-end, whose
`validateFlags` rejects `appID = 0` with the app-id-required error. -/
theorem C10_no_appID_precondition (appID now : Int) (f : Flags)
    (h : f.appID = 0) :
    (Auth.generateJWTClaims appID now).iss = IssClaim.int appID
    ∧ (App.generateJWTClaims appID now).iss = IssClaim.str (toString appID)
    ∧ Root.validateFlags f
      = Except.error "app ID is required (--app-id or GH_APP_TOKEN_APP_ID)" := by
  refine ⟨rfl, rfl, ?_⟩
  simp [Root.validateFlags, h]

/-- C10 (witness): the theorem at the negative app id -7 and flags whose
app id is 0. -/
theorem C10_witness :
    (Auth.generateJWTClaims (-7) 0).iss = IssClaim.int (-7)
    ∧ (App.generateJWTClaims (-7) 0).iss = IssClaim.str (toString (-7 : Int))
    ∧ Root.validateFlags
        { appID := 0, privateKeyPath := "k", installationID := 1
          org := "", repo := "", user := "" }
      = Except.error "app ID is required (--app-id or GH_APP_TOKEN_APP_ID)" :=
  C10_no_appID_precondition (-7) 0
    { appID := 0, privateKeyPath := "k", installationID := 1
      org := "", repo := "", user := "" } rfl

/-- C2 (counterexample): with both an installation id (9) and an org
("conflict-org") set, the resolver entry point `getToken` does not fail:
it silently chooses the installation id, performs the exchange and
returns its token. -/
theorem C2_counterexample :
    Root.getToken bOK fConflict = (Except.ok "tok", [Call.exchange 9]) := rfl

/-- C2 (amended): an ambiguous selector (two or more fields set) is
rejected with a hard error, but by the CLI front-end, not the resolver:
`validateFlags` fails with one of its two conflict errors, so the run
pipeline stops with that error and an empty call trace.  `getToken`
itself never fails on an ambiguous selector: it dispatches on the first
set field in the priority order installation-id, org, repo, user,
ignoring every remaining set field (with an id set it exchanges on that
id; with no id and an org set it resolves via the org regardless of repo
and user; with only a repo set it performs the repo dispatch regardless
of user; with only a user set it resolves via the user). -/
theorem C2_conflict_rejected_by_frontend (keyLoad : Except String Unit)
    (b : Backend) (f : Flags) (hApp : f.appID ≠ 0)
    (hKey : f.privateKeyPath ≠ "") :
    (2 ≤ Root.numSelectors f →
      ((Root.validateFlags f
          = Except.error
              "--installation-id and --org, --repo, or --user cannot be used together"
        ∧ Root.runWorkflow keyLoad b f
          = (Except.error
              "--installation-id and --org, --repo, or --user cannot be used together",
             [])
        ∧ f.installationID ≠ 0)
       ∨ (Root.validateFlags f
          = Except.error "--org, --repo, or --user cannot be used together"
        ∧ Root.runWorkflow keyLoad b f
          = (Except.error "--org, --repo, or --user cannot be used together",
             [])
        ∧ f.installationID = 0)))
    ∧ (f.installationID ≠ 0 →
        Root.getToken b f = App.GetToken b f.installationID)
    ∧ (f.installationID = 0 → f.org ≠ "" →
        Root.getToken b f = App.GetTokenFromOrg b f.org)
    ∧ (f.installationID = 0 → f.org = "" → f.repo ≠ "" →
        Root.getToken b f
          = match goSplit (Char.ofNat 47) f.repo with
            | [owner, name] => App.GetTokenFromRepo b owner name
            | _ =>
              (Except.error "repo must be in format \x27owner/repo\x27", []))
    ∧ (f.installationID = 0 → f.org = "" → f.repo = "" → f.user ≠ "" →
        Root.getToken b f = App.GetTokenFromUser b f.user) := by
  refine ⟨?_, ?_, ?_, ?_, ?_⟩
  · intro hConf
    by_cases h1 : f.installationID = 0 <;> by_cases h2 : f.org = "" <;>
      by_cases h3 : f.repo = "" <;> by_cases h4 : f.user = "" <;>
      simp [Root.numSelectors, h1, h2, h3, h4] at hConf <;>
      simp [Root.validateFlags, Root.runWorkflow, hApp, hKey, h1, h2, h3, h4]
  · intro h
    simp [Root.getToken, h]
  · intro h1 h2
    simp [Root.getToken, h1, h2]
  · intro h1 h2 h3
    simp [Root.getToken, h1, h2, h3]
  · intro h1 h2 h3 h4
    simp [Root.getToken, h1, h2, h3, h4]

/-- C2 (witness): the amended theorem at two concrete conflicting flag
sets: with id 9 plus an org the front-end rejects with the id-conflict
message while `getToken` silently exchanges on the id; with an org plus
a user (no id) `getToken` silently resolves via the org. -/
theorem C2_witness :
    Root.validateFlags fConflict
      = Except.error
          "--installation-id and --org, --repo, or --user cannot be used together"
    ∧ Root.getToken bOK fConflict
      = App.GetToken bOK fConflict.installationID
    ∧ Root.validateFlags fOrgUser
      = Except.error "--org, --repo, or --user cannot be used together"
    ∧ Root.getToken bOK fOrgUser = App.GetTokenFromOrg bOK fOrgUser.org := by
  have h :=
    C2_conflict_rejected_by_frontend (Except.ok ()) bOK fConflict
      (by decide) (by decide)
  have h2 :=
    C2_conflict_rejected_by_frontend (Except.ok ()) bOK fOrgUser
      (by decide) (by decide)
  refine ⟨?_, h.2.1 (by decide), ?_, h2.2.2.1 (by decide) (by decide)⟩
  · rcases h.1 (by decide) with ⟨hv, _, _⟩ | ⟨_, _, hid⟩
    · exact hv
    · exact absurd hid (by decide)
  · rcases h2.1 (by decide) with ⟨_, _, hid⟩ | ⟨hv, _, _⟩
    · exact absurd rfl hid
    · exact hv

/-- The org-lookup path issues at most one lookup and at most one
exchange, and succeeds only after exactly one exchange. -/
theorem getTokenFromOrg_bounds (b : Backend) (o : String) :
    numLookups (App.GetTokenFromOrg b o).2 ≤ 1
    ∧ numExchanges (App.GetTokenFromOrg b o).2 ≤ 1
    ∧ ∀ t, (App.GetTokenFromOrg b o).1 = Except.ok t →
        numExchanges (App.GetTokenFromOrg b o).2 = 1 := by
  by_cases ho : o = ""
  · simp [App.GetTokenFromOrg, ho, numLookups, numExchanges]
  · rcases hb : b.findOrganizationInstallation o with e | id
    · simp [App.GetTokenFromOrg, ho, hb, numLookups, numExchanges]
    · rcases hc : b.createInstallationToken id with e2 | t2 <;>
        simp [App.GetTokenFromOrg, App.GetToken, ho, hb, hc, numLookups,
          numExchanges]

/-- The repo-lookup path issues at most one lookup and at most one
exchange, and succeeds only after exactly one exchange. -/
theorem getTokenFromRepo_bounds (b : Backend) (ow nm : String) :
    numLookups (App.GetTokenFromRepo b ow nm).2 ≤ 1
    ∧ numExchanges (App.GetTokenFromRepo b ow nm).2 ≤ 1
    ∧ ∀ t, (App.GetTokenFromRepo b ow nm).1 = Except.ok t →
        numExchanges (App.GetTokenFromRepo b ow nm).2 = 1 := by
  by_cases ho : ow = "" ∨ nm = ""
  · simp [App.GetTokenFromRepo, ho, numLookups, numExchanges]
  · rcases hb : b.findRepositoryInstallation ow nm with e | id
    · simp [App.GetTokenFromRepo, ho, hb, numLookups, numExchanges]
    · rcases hc : b.createInstallationToken id with e2 | t2 <;>
        simp [App.GetTokenFromRepo, App.GetToken, ho, hb, hc, numLookups,
          numExchanges]

/-- The user-lookup path issues at most one lookup and at most one
exchange, and succeeds only after exactly one exchange. -/
theorem getTokenFromUser_bounds (b : Backend) (u : String) :
    numLookups (App.GetTokenFromUser b u).2 ≤ 1
    ∧ numExchanges (App.GetTokenFromUser b u).2 ≤ 1
    ∧ ∀ t, (App.GetTokenFromUser b u).1 = Except.ok t →
        numExchanges (App.GetTokenFromUser b u).2 = 1 := by
  by_cases hu : u = ""
  · simp [App.GetTokenFromUser, hu, numLookups, numExchanges]
  · rcases hb : b.findUserInstallation u with e | id
    · simp [App.GetTokenFromUser, hu, hb, numLookups, numExchanges]
    · rcases hc : b.createInstallationToken id with e2 | t2 <;>
        simp [App.GetTokenFromUser, App.GetToken, hu, hb, hc, numLookups,
          numExchanges]

/-- C5 (counterexample): a valid selector (org "testorg" only) against a
backend whose lookup fails remotely: the run performs the one lookup and
zero exchange calls, so "exactly one exchange call" does not hold. -/
theorem C5_counterexample :
    Root.getToken bFail fOrg
      = (Except.error
          "failed to find organization installation: remote failure",
         [Call.lookupOrg "testorg"])
    ∧ numExchanges (Root.getToken bFail fOrg).2 = 0 := ⟨rfl, rfl⟩

/-- C5 (amended): every run of `getToken` (any flags, any backend)
issues at most one lookup call and at most one exchange call; with an
explicit installation id the trace is exactly one exchange on that id
and no lookup; and every successful run performed exactly one
exchange.  An exchange is not reached when precondition validation or
the lookup fails. -/
theorem C5_call_bounds (b : Backend) (f : Flags) :
    numLookups (Root.getToken b f).2 ≤ 1
    ∧ numExchanges (Root.getToken b f).2 ≤ 1
    ∧ (f.installationID ≠ 0 →
        (Root.getToken b f).2 = [Call.exchange f.installationID])
    ∧ (∀ t, (Root.getToken b f).1 = Except.ok t →
        numExchanges (Root.getToken b f).2 = 1) := by
  by_cases h1 : f.installationID = 0
  case neg =>
    have hg : Root.getToken b f = App.GetToken b f.installationID := by
      simp [Root.getToken, h1]
    rw [hg]
    rcases hc : b.createInstallationToken f.installationID with e | t <;>
      simp [App.GetToken, hc, numExchanges, numLookups]
  case pos =>
    have h3vac : f.installationID ≠ 0 →
        (Root.getToken b f).2 = [Call.exchange f.installationID] :=
      fun h => absurd h1 h
    by_cases h2 : f.org = ""
    case neg =>
      have hg : Root.getToken b f = App.GetTokenFromOrg b f.org := by
        simp [Root.getToken, h1, h2]
      obtain ⟨p1, p2, p3⟩ := getTokenFromOrg_bounds b f.org
      rw [hg] at h3vac ⊢
      exact ⟨p1, p2, h3vac, p3⟩
    case pos =>
      by_cases h3 : f.repo = ""
      case neg =>
        rcases hs : goSplit (Char.ofNat 47) f.repo with _ | ⟨x, _ | ⟨y, _ | ⟨z, rest⟩⟩⟩
        · have hg : Root.getToken b f
              = (Except.error "repo must be in format \x27owner/repo\x27",
                 []) := by
            simp [Root.getToken, h1, h2, h3, hs]
          rw [hg] at h3vac ⊢
          simp [numExchanges, numLookups, h3vac, h1]
        · have hg : Root.getToken b f
              = (Except.error "repo must be in format \x27owner/repo\x27",
                 []) := by
            simp [Root.getToken, h1, h2, h3, hs]
          rw [hg] at h3vac ⊢
          simp [numExchanges, numLookups, h3vac, h1]
        · have hg : Root.getToken b f = App.GetTokenFromRepo b x y := by
            simp [Root.getToken, h1, h2, h3, hs]
          obtain ⟨p1, p2, p3⟩ := getTokenFromRepo_bounds b x y
          rw [hg] at h3vac ⊢
          exact ⟨p1, p2, h3vac, p3⟩
        · have hg : Root.getToken b f
              = (Except.error "repo must be in format \x27owner/repo\x27",
                 []) := by
            simp [Root.getToken, h1, h2, h3, hs]
          rw [hg] at h3vac ⊢
          simp [numExchanges, numLookups, h3vac, h1]
      case pos =>
        by_cases h4 : f.user = ""
        case neg =>
          have hg : Root.getToken b f = App.GetTokenFromUser b f.user := by
            simp [Root.getToken, h1, h2, h3, h4]
          obtain ⟨p1, p2, p3⟩ := getTokenFromUser_bounds b f.user
          rw [hg] at h3vac ⊢
          exact ⟨p1, p2, h3vac, p3⟩
        case pos =>
          have hg : Root.getToken b f
              = (Except.error
                  "no installation ID, org, repo, or user provided", []) := by
            simp [Root.getToken, h1, h2, h3, h4]
          rw [hg] at h3vac ⊢
          simp [numExchanges, numLookups, h3vac, h1]

/-- C5 (witness): with an explicit installation id 9 against the all-ok
backend, the trace is exactly one exchange on id 9 and the successful
run made exactly one exchange call. -/
theorem C5_witness :
    (Root.getToken bOK fId).2 = [Call.exchange 9]
    ∧ numExchanges (Root.getToken bOK fId).2 = 1 :=
  ⟨(C5_call_bounds bOK fId).2.2.1 (by decide),
   (C5_call_bounds bOK fId).2.2.2 "tok" rfl⟩
